import Mathlib

/-!
Verification of the forecast orchestration core of Open-Quartz-Solar-Forecast
(`quartz_solar_forecast/forecast.py`).

Modelling conventions:
* Instants are whole seconds since an epoch (plain `Int`); calendar dates
  are day numbers (`dateOf`).  pandas `Timestamp.round` is `pandasRound`
  (round to the nearest multiple, ties to the even multiple).
* DataFrames of predictions are `PredDF`: a list of `(date, power)` rows plus a
  flag recording whether the `date` column has been made the lookup index.
* The external collaborators (`get_nwp`, `make_pv_data`,
  `forecast_v1_tilt_orientation`, `TryolabsSolarPowerPredictor`) and the wall
  clock are opaque parameters bundled in `Env`; the theorems quantify over
  them.
* Effects of the xgb path (printed diagnostics, `load_model`,
  `predict_power_output`) are recorded in the returned `RunOutput`; exceptions
  become `Except.error`.
-/

namespace QSF

/-- Instants are plain `Int`: whole seconds since the epoch.

15 minutes, the grid of the gb path's default rounding. -/
def quarterHour : Int := 900

/-- One hour, the grid of the xgb path's rounding. -/
def oneHour : Int := 3600

/-- One calendar day. -/
def oneDay : Int := 86400

/-- pandas `Timestamp.round`: round `t` to the nearest multiple of `u`,
with ties going to the even multiple. -/
def pandasRound (u : Int) (t : Int) : Int :=
  let q := t / u
  let r := t % u
  if 2 * r < u then q * u
  else if u < 2 * r then (q + 1) * u
  else if q % 2 = 0 then q * u else (q + 1) * u

/-- The calendar date of an instant, as a day number
(`strftime("%Y-%m-%d")` in the source). -/
def dateOf (t : Int) : Int := t / oneDay

/-- Midnight of a day number (`datetime.strptime(start_date, "%Y-%m-%d")`). -/
def midnight (d : Int) : Int := d * oneDay

/-- The PV site (pydantic `PVSite`): only the fields the core reads. -/
structure PVSite where
  latitude : Int
  longitude : Int
  capacity_kwp : Int
  tilt : Int
  orientation : Int
deriving DecidableEq

/-- The `ts` argument as supplied by the caller: `datetime | str`. -/
inductive TsArg
  | instant (t : Int)
  | text (s : String)
deriving DecidableEq

/-- A predictions table: `(date, power)` rows, plus whether the `date` column
is the table's lookup index (a fresh DataFrame has a plain positional index;
`set_index("date")` flips the flag). -/
structure PredDF where
  rows : List (Int × Int)
  dateIsIndex : Bool
deriving DecidableEq

/-- External collaborators and the wall clock, opaque to the core.
`Nwp`/`Pv` are the (opaque) dataset types, `M` the type of a gb model
override. -/
structure Env (Nwp Pv M : Type) where
  now : Int
  fromisoformat : String → Option Int
  pdTimestampParse : String → Option Int
  get_nwp : PVSite → Int → String → Nwp
  make_pv_data : PVSite → Int → Option String → Option String →
    Option PredDF → Option PredDF → Pv
  forecast_v1_tilt_orientation : String → Nwp → Pv → Int → Option M → PredDF
  predict_power_output : Int → Int → Int → Int → Int → Int → PredDF

/-- Timestamp normalization of the gb path (forecast.py lines 34-38):
unset → `pd.Timestamp.now().round("15min")`; a string is parsed with
`datetime.fromisoformat`; an instant is used as-is. -/
def resolve_ts_gb (parse : String → Option Int) (now : Int) :
    Option TsArg → Option Int
  | none => some (pandasRound quarterHour now)
  | some (.instant t) => some t
  | some (.text s) => parse s

/-- `predict_ocf` (forecast.py lines 11-54): resolve `ts`, fetch NWP and PV
data for it, run the tilt/orientation model and return its table. -/
def predict_ocf {Nwp Pv M : Type} (env : Env Nwp Pv M) (site : PVSite)
    (model : Option M) (ts : Option TsArg) (nwp_source : String)
    (access_token enphase_system_id : Option String)
    (solis_data givenergy_data : Option PredDF) : Except String PredDF :=
  match resolve_ts_gb env.fromisoformat env.now ts with
  | none => .error "InvalidTimestamp"
  | some t =>
    let nwp_xr := env.get_nwp site t nwp_source
    let pv_xr := env.make_pv_data site t access_token enphase_system_id
      solis_data givenergy_data
    .ok (env.forecast_v1_tilt_orientation nwp_source nwp_xr pv_xr t model)

/-- The base instant of the xgb path: the value both `start_date` and
`start_time` are computed from (forecast.py lines 70-75).  Unset →
`pd.Timestamp.now()`; otherwise `pd.Timestamp(ts)`. -/
def resolve_ts_try (parse : String → Option Int) (now : Int) :
    Option TsArg → Option Int
  | none => some now
  | some (.instant t) => some t
  | some (.text s) => parse s

/-- The diagnostic printed by the staleness gate (forecast.py lines 84-87). -/
def stale_message (d : Int) : String :=
  "Start date (" ++ toString d ++
    ") is more than 3 months ago, no forecast data available."

/-- The observable outcome of one forecast call: printed messages, whether
`load_model` ran, whether `predict_power_output` ran, and the returned value
(`none` models Python's implicit `None` return). -/
structure RunOutput where
  messages : List String
  loaded : Bool
  predicted : Bool
  result : Option PredDF
deriving DecidableEq

/-- `predict_tryolabs` (forecast.py lines 56-108): resolve the base instant,
derive `start_date`/`start_time`/`end_time`, apply the 90-day staleness gate,
otherwise load the model, predict, and window/re-index the predictions. -/
def predict_tryolabs {Nwp Pv M : Type} (env : Env Nwp Pv M) (site : PVSite)
    (ts : Option TsArg) : Except String RunOutput :=
  match resolve_ts_try env.pdTimestampParse env.now ts with
  | none => .error "InvalidTimestamp"
  | some base =>
    let start_date := dateOf base
    let start_time := pandasRound oneHour base
    let end_time := start_time + 48 * oneHour
    let start_date_datetime := midnight start_date
    let three_months_ago := env.now - 90 * oneDay
    if start_date_datetime < three_months_ago then
      .ok { messages := [stale_message start_date], loaded := false,
            predicted := false, result := none }
    else
      let predictions := env.predict_power_output site.latitude site.longitude
        start_date site.capacity_kwp site.orientation site.tilt
      let windowed := predictions.rows.filter
        fun r => decide (start_time ≤ r.1 ∧ r.1 < end_time)
      .ok { messages := ["Predictions finished."], loaded := true,
            predicted := true,
            result := some { rows := windowed, dateIsIndex := true } }

/-- `run_forecast` (forecast.py lines 111-153): dispatch on the model name.
The gb branch forwards everything with `model=None`; the xgb branch forwards
only `site` and `ts`; anything else raises `ValueError`. -/
def run_forecast {Nwp Pv M : Type} (env : Env Nwp Pv M) (site : PVSite)
    (model : String) (ts : Option TsArg) (nwp_source : String)
    (access_token enphase_system_id : Option String)
    (solis_data givenergy_data : Option PredDF) : Except String RunOutput :=
  if model = "gb" then
    (predict_ocf env site (none : Option M) ts nwp_source access_token
        enphase_system_id solis_data givenergy_data).map
      fun df => { messages := [], loaded := false, predicted := false,
                  result := some df }
  else if model = "xgb" then
    predict_tryolabs env site ts
  else
    .error ("Unsupported model: " ++ model ++ ". Choose between 'xgb' and 'gb'")

/-- The spec's wording for the unset-`ts` resolution ("rounded **down** to the
nearest 15-minute boundary"), for comparison with the code's `pandasRound`. -/
def floorRound (u : Int) (t : Int) : Int := (t / u) * u

/-! Concrete fixtures used by the witness theorems. -/

/-- A concrete site. -/
def testSite : PVSite :=
  { latitude := 51, longitude := 0, capacity_kwp := 4, tilt := 30,
    orientation := 180 }

/-- A concrete predictions table (positional index, as a predictor emits). -/
def testDF : PredDF := { rows := [(0, 1), (200000, 2)], dateIsIndex := false }

/-- A concrete environment with wall clock `now`. -/
def testEnv (now : Int) : Env Nat Nat Nat :=
  { now := now
    fromisoformat := fun _ => some 60
    pdTimestampParse := fun _ => some 60
    get_nwp := fun _ _ _ => 0
    make_pv_data := fun _ _ _ _ _ _ => 0
    forecast_v1_tilt_orientation := fun _ _ _ _ _ => testDF
    predict_power_output := fun _ _ _ _ _ _ => testDF }

/-! The claims. -/

/-- Claim C2: for every model value outside {"gb", "xgb"}, `run_forecast`
fails with an error whose message names the offending value and lists "gb"
and "xgb" as the valid choices; the result is the same error for every
collaborator environment, so no backend is invoked. -/
theorem C2_unsupported_model {Nwp Pv M : Type} (env : Env Nwp Pv M)
    (site : PVSite) (model : String) (ts : Option TsArg) (nwp_source : String)
    (access_token enphase_system_id : Option String)
    (solis_data givenergy_data : Option PredDF)
    (h1 : model ≠ "gb") (h2 : model ≠ "xgb") :
    run_forecast env site model ts nwp_source access_token enphase_system_id
        solis_data givenergy_data =
      .error ("Unsupported model: " ++ model ++
        ". Choose between 'xgb' and 'gb'") ∧
    List.IsInfix model.toList
      ("Unsupported model: " ++ model ++ ". Choose between 'xgb' and 'gb'").toList ∧
    List.IsInfix "gb".toList
      ("Unsupported model: " ++ model ++ ". Choose between 'xgb' and 'gb'").toList ∧
    List.IsInfix "xgb".toList
      ("Unsupported model: " ++ model ++ ". Choose between 'xgb' and 'gb'").toList := by
  refine ⟨by simp [run_forecast, h1, h2], ?_, ?_, ?_⟩
  · exact ⟨"Unsupported model: ".toList,
      ". Choose between 'xgb' and 'gb'".toList,
      by simp [String.toList, String.data_append]⟩
  · refine ⟨("Unsupported model: " ++ model ++
      ". Choose between 'xgb' and '").toList, "'".toList, ?_⟩
    simp [String.toList, String.data_append]
  · refine ⟨("Unsupported model: " ++ model ++
      ". Choose between '").toList, "' and 'gb'".toList, ?_⟩
    simp [String.toList, String.data_append]

/-- Claim C2 witness: the concrete scenario model="unknown". -/
theorem C2_unsupported_model_witness :
    run_forecast (testEnv 0) testSite "unknown" none "icon" none none none
        none =
      .error ("Unsupported model: " ++ "unknown" ++
        ". Choose between 'xgb' and 'gb'") ∧
    List.IsInfix "unknown".toList
      ("Unsupported model: " ++ "unknown" ++ ". Choose between 'xgb' and 'gb'").toList ∧
    List.IsInfix "gb".toList
      ("Unsupported model: " ++ "unknown" ++ ". Choose between 'xgb' and 'gb'").toList ∧
    List.IsInfix "xgb".toList
      ("Unsupported model: " ++ "unknown" ++ ". Choose between 'xgb' and 'gb'").toList :=
  C2_unsupported_model (testEnv 0) testSite "unknown" none "icon" none none
    none none (by decide) (by decide)

/-- Claim C7: for model="xgb" the outcome of `run_forecast` does not depend on
nwp_source, access_token, enphase_system_id, solis_data or givenergy_data:
two calls with the same site and ts but different values of those parameters
return the same result. -/
theorem C7_xgb_ignores_extra_params {Nwp Pv M : Type} (env : Env Nwp Pv M)
    (site : PVSite) (ts : Option TsArg) (ns1 ns2 : String)
    (at1 at2 es1 es2 : Option String) (sd1 sd2 gd1 gd2 : Option PredDF) :
    run_forecast env site "xgb" ts ns1 at1 es1 sd1 gd1 =
      run_forecast env site "xgb" ts ns2 at2 es2 sd2 gd2 := by
  simp [run_forecast]

/-- Claim C10: every call through the public entry point with model="gb",
whatever form of ts it resolves (unset, instant or text) and whatever the
other arguments are, invokes the tilt/orientation predictor with the
model-override argument fixed to `none`. -/
theorem C10_gb_override_is_none {Nwp Pv M : Type} (env : Env Nwp Pv M)
    (site : PVSite) (ts : Option TsArg) (t : Int) (nwp_source : String)
    (access_token enphase_system_id : Option String)
    (solis_data givenergy_data : Option PredDF)
    (hres : resolve_ts_gb env.fromisoformat env.now ts = some t) :
    run_forecast env site "gb" ts nwp_source access_token
        enphase_system_id solis_data givenergy_data =
      .ok { messages := [], loaded := false, predicted := false,
            result := some (env.forecast_v1_tilt_orientation nwp_source
              (env.get_nwp site t nwp_source)
              (env.make_pv_data site t access_token enphase_system_id
                solis_data givenergy_data)
              t (none : Option M)) } := by
  unfold run_forecast
  rw [if_pos rfl]
  unfold predict_ocf
  rw [hres]
  rfl

/-- Claim C10 witness: the default call, ts unset (resolving to the rounded
wall clock 0). -/
theorem C10_gb_override_is_none_witness :
    run_forecast (testEnv 7) testSite "gb" none "icon" none none none none =
      .ok { messages := [], loaded := false, predicted := false,
            result := some ((testEnv 7).forecast_v1_tilt_orientation "icon"
              ((testEnv 7).get_nwp testSite 0 "icon")
              ((testEnv 7).make_pv_data testSite 0 none none none none)
              0 (none : Option Nat)) } :=
  C10_gb_override_is_none (testEnv 7) testSite none 0 "icon" none none none
    none (by decide)

/-- Claim C8: on the gb path, whatever table the tilt/orientation model
returns is the value `predict_ocf` returns, with no windowing, filtering,
re-indexing or other transformation in between; this holds for every model
function and every resolved timestamp. -/
theorem C8_gb_output_unmodified {Nwp Pv M : Type} (env : Env Nwp Pv M)
    (site : PVSite) (model : Option M) (ts : Option TsArg) (t : Int)
    (nwp_source : String) (access_token enphase_system_id : Option String)
    (solis_data givenergy_data : Option PredDF)
    (hres : resolve_ts_gb env.fromisoformat env.now ts = some t) :
    predict_ocf env site model ts nwp_source access_token enphase_system_id
        solis_data givenergy_data =
      .ok (env.forecast_v1_tilt_orientation nwp_source
        (env.get_nwp site t nwp_source)
        (env.make_pv_data site t access_token enphase_system_id solis_data
          givenergy_data)
        t model) := by
  unfold predict_ocf
  rw [hres]

/-- Claim C8 witness: a supplied instant, the concrete environment. -/
theorem C8_gb_output_unmodified_witness :
    predict_ocf (testEnv 0) testSite (none : Option Nat)
        (some (.instant 1000)) "icon" none none none none =
      .ok ((testEnv 0).forecast_v1_tilt_orientation "icon"
        ((testEnv 0).get_nwp testSite 1000 "icon")
        ((testEnv 0).make_pv_data testSite 1000 none none none none)
        1000 (none : Option Nat)) :=
  C8_gb_output_unmodified (testEnv 0) testSite none (some (.instant 1000))
    1000 "icon" none none none none (by decide)

/-- Claim C5: on the gb path a supplied timestamp is forwarded to data
acquisition and the model without re-rounding — an instant exactly as given,
a string exactly as parsed — while the 15-minute rounding is applied only in
the unset case. -/
theorem C5_gb_no_reround {Nwp Pv M : Type} (env : Env Nwp Pv M)
    (site : PVSite) (model : Option M) (t : Int) (s : String)
    (u : Int) (nwp_source : String)
    (access_token enphase_system_id : Option String)
    (solis_data givenergy_data : Option PredDF)
    (hparse : env.fromisoformat s = some u) :
    predict_ocf env site model (some (.instant t)) nwp_source access_token
        enphase_system_id solis_data givenergy_data =
      .ok (env.forecast_v1_tilt_orientation nwp_source
        (env.get_nwp site t nwp_source)
        (env.make_pv_data site t access_token enphase_system_id solis_data
          givenergy_data) t model) ∧
    predict_ocf env site model (some (.text s)) nwp_source access_token
        enphase_system_id solis_data givenergy_data =
      .ok (env.forecast_v1_tilt_orientation nwp_source
        (env.get_nwp site u nwp_source)
        (env.make_pv_data site u access_token enphase_system_id solis_data
          givenergy_data) u model) ∧
    resolve_ts_gb env.fromisoformat env.now none =
      some (pandasRound quarterHour env.now) := by
  refine ⟨?_, ?_, rfl⟩
  · unfold predict_ocf; rfl
  · simp only [predict_ocf, resolve_ts_gb, hparse]

/-- Claim C5 witness: instant 1234 and a string parsing to 60. -/
theorem C5_gb_no_reround_witness :
    predict_ocf (testEnv 7) testSite (none : Option Nat)
        (some (.instant 1234)) "icon" none none none none =
      .ok ((testEnv 7).forecast_v1_tilt_orientation "icon"
        ((testEnv 7).get_nwp testSite 1234 "icon")
        ((testEnv 7).make_pv_data testSite 1234 none none none none)
        1234 (none : Option Nat)) ∧
    predict_ocf (testEnv 7) testSite (none : Option Nat)
        (some (.text "2024-06-01T12:00:00")) "icon" none none none none =
      .ok ((testEnv 7).forecast_v1_tilt_orientation "icon"
        ((testEnv 7).get_nwp testSite 60 "icon")
        ((testEnv 7).make_pv_data testSite 60 none none none none)
        60 (none : Option Nat)) ∧
    resolve_ts_gb (testEnv 7).fromisoformat (testEnv 7).now none =
      some (pandasRound quarterHour (testEnv 7).now) :=
  C5_gb_no_reround (testEnv 7) testSite none 1234 "2024-06-01T12:00:00" 60
    "icon" none none none none (by decide)

/-- Claim C4 (code-bug evidence): with ts unset and the wall clock 480 seconds
past a quarter-hour boundary, the gb path resolves to the *nearest* boundary
(900, i.e. :15), not the rounded-down boundary (0) that the function's own
docstring and the spec promise. -/
theorem C4_round_is_not_floor :
    resolve_ts_gb (fun _ => none) 480 none = some 900 ∧
    floorRound quarterHour 480 = 0 ∧ (900 : Int) ≠ 0 := by
  refine ⟨by decide, by decide, by decide⟩

/-- Claim C1: on the xgb path, whenever a table is returned, every row's
index timestamp t satisfies start ≤ t < start + 48 hours, where start is the
hour-rounded reference instant, and the date column is the table's lookup
index. -/
theorem C1_xgb_window_bound {Nwp Pv M : Type} (env : Env Nwp Pv M)
    (site : PVSite) (ts : Option TsArg) (base : Int) (out : RunOutput)
    (df : PredDF)
    (hbase : resolve_ts_try env.pdTimestampParse env.now ts = some base)
    (hout : predict_tryolabs env site ts = .ok out)
    (hdf : out.result = some df) :
    df.dateIsIndex = true ∧
    ∀ r ∈ df.rows, pandasRound oneHour base ≤ r.1 ∧
      r.1 < pandasRound oneHour base + 48 * oneHour := by
  unfold predict_tryolabs at hout
  rw [hbase] at hout
  dsimp only at hout
  split at hout
  · injection hout with h
    subst h
    exact absurd hdf (by simp)
  · injection hout with h
    subst h
    simp only [Option.some.injEq] at hdf
    subst hdf
    refine ⟨rfl, ?_⟩
    intro r hr
    rw [List.mem_filter] at hr
    exact of_decide_eq_true hr.2

/-- Claim C1 witness: a concrete run returning one in-window row. -/
theorem C1_xgb_window_bound_witness :
    (⟨[((0 : Int), (1 : Int))], true⟩ : PredDF).dateIsIndex = true ∧
    ∀ r ∈ (⟨[((0 : Int), (1 : Int))], true⟩ : PredDF).rows,
      pandasRound oneHour 0 ≤ r.1 ∧
        r.1 < pandasRound oneHour 0 + 48 * oneHour :=
  C1_xgb_window_bound (testEnv 0) testSite (some (.instant 0)) 0
    ⟨["Predictions finished."], true, true, some ⟨[(0, 1)], true⟩⟩
    ⟨[(0, 1)], true⟩ (by rfl) (by rfl) (by rfl)

/-- Claim C3: on the xgb path, a ts whose calendar date is strictly before
today − 90 days (the cutoff being now − 3×30 days) makes the call complete
without an exception, emit the staleness diagnostic, and return no rows. -/
theorem C3_stale_date_empty {Nwp Pv M : Type} (env : Env Nwp Pv M)
    (site : PVSite) (t : Int)
    (h : dateOf t < dateOf env.now - 90) :
    predict_tryolabs env site (some (.instant t)) =
      .ok { messages := [stale_message (dateOf t)], loaded := false,
            predicted := false, result := none } := by
  have hgate : midnight (dateOf t) < env.now - 90 * oneDay := by
    simp only [midnight, dateOf, oneDay] at h ⊢
    omega
  simp only [predict_tryolabs, resolve_ts_try]
  rw [if_pos hgate]

/-- Claim C3 witness: ts at the epoch, wall clock about 31.7 years later. -/
theorem C3_stale_date_empty_witness :
    predict_tryolabs (testEnv 1000000000) testSite (some (.instant 0)) =
      .ok { messages := [stale_message (dateOf 0)], loaded := false,
            predicted := false, result := none } :=
  C3_stale_date_empty (testEnv 1000000000) testSite 0 (by decide)

/-- Claim C9: when the staleness gate triggers, the xgb path returns the
language's absent value (`none`, not an empty table), and neither
`load_model` nor `predict_power_output` runs on that branch. -/
theorem C9_stale_branch_returns_none {Nwp Pv M : Type} (env : Env Nwp Pv M)
    (site : PVSite) (ts : Option TsArg) (base : Int)
    (hbase : resolve_ts_try env.pdTimestampParse env.now ts = some base)
    (hgate : midnight (dateOf base) < env.now - 90 * oneDay) :
    predict_tryolabs env site ts =
      .ok { messages := [stale_message (dateOf base)], loaded := false,
            predicted := false, result := none } := by
  unfold predict_tryolabs
  rw [hbase]
  dsimp only
  rw [if_pos hgate]

/-- Claim C9 witness: a string ts parsing to instant 60, stale wall clock. -/
theorem C9_stale_branch_returns_none_witness :
    predict_tryolabs (testEnv 1000000000) testSite (some (.text "old")) =
      .ok { messages := [stale_message (dateOf 60)], loaded := false,
            predicted := false, result := none } :=
  C9_stale_branch_returns_none (testEnv 1000000000) testSite
    (some (.text "old")) 60 (by rfl) (by decide)

/-- The ForecastResult the spec's §4.4 Resolve/Window steps describe for a
base instant: the predictor is called with the calendar date of the unrounded
base value, the window starts at the base rounded to the hour and ends
exactly 48 hours later, and the date column becomes the index. -/
def xgb_window_result {Nwp Pv M : Type} (env : Env Nwp Pv M) (site : PVSite)
    (base : Int) : PredDF :=
  { rows := (env.predict_power_output site.latitude site.longitude
        (dateOf base) site.capacity_kwp site.orientation site.tilt).rows.filter
      fun r => decide (pandasRound oneHour base ≤ r.1 ∧
        r.1 < pandasRound oneHour base + 48 * oneHour),
    dateIsIndex := true }

/-- Claim C6: on the xgb path the start instant is the supplied ts rounded to
the hour (the current time rounded to the hour when ts is unset), the
start-date fed to the predictor is derived from the same unrounded value, and
the window ends exactly 48 hours after the start instant: the output is
exactly `xgb_window_result` of the base instant. -/
theorem C6_xgb_resolution {Nwp Pv M : Type} (env : Env Nwp Pv M)
    (site : PVSite) (t : Int)
    (hfresh : ¬ midnight (dateOf t) < env.now - 90 * oneDay) :
    predict_tryolabs env site (some (.instant t)) =
      .ok { messages := ["Predictions finished."], loaded := true,
            predicted := true, result := some (xgb_window_result env site t) } ∧
    predict_tryolabs env site none =
      .ok { messages := ["Predictions finished."], loaded := true,
            predicted := true,
            result := some (xgb_window_result env site env.now) } := by
  constructor
  · simp only [predict_tryolabs, resolve_ts_try, xgb_window_result]
    rw [if_neg hfresh]
  · have hnow : ¬ midnight (dateOf env.now) < env.now - 90 * oneDay := by
      unfold midnight dateOf oneDay
      omega
    simp only [predict_tryolabs, resolve_ts_try, xgb_window_result]
    rw [if_neg hnow]

/-- Claim C6 witness: ts = the epoch instant with the wall clock there too. -/
theorem C6_xgb_resolution_witness :
    predict_tryolabs (testEnv 0) testSite (some (.instant 0)) =
      .ok { messages := ["Predictions finished."], loaded := true,
            predicted := true,
            result := some (xgb_window_result (testEnv 0) testSite 0) } ∧
    predict_tryolabs (testEnv 0) testSite none =
      .ok { messages := ["Predictions finished."], loaded := true,
            predicted := true,
            result := some (xgb_window_result (testEnv 0) testSite
              (testEnv 0).now) } :=
  C6_xgb_resolution (testEnv 0) testSite 0 (by decide)

end QSF
